import Mathlib

/-!
Verification of the incremental data-refresh orchestrator in
`Gas/scripts` (`scheduling.py`, `metadata.py`, `script_runner.py`,
`automate_bronze_silver.py`, `automate_bronze.py`).

Time is modelled as an integer count of microseconds since a reference
Monday 00:00:00, so Python `datetime` field accesses (`weekday()`,
`hour`, `replace(...)`) and `timedelta` arithmetic become integer
arithmetic with Euclidean (floor-for-positive-divisor) division,
matching Python `//` and `%` semantics on a positive divisor.
-/

namespace Gas

/-- Microseconds in one second. -/
def usecPerSec : Int := 1000000

/-- Microseconds in one minute. -/
def usecPerMin : Int := 60 * usecPerSec

/-- Microseconds in one hour. -/
def usecPerHour : Int := 60 * usecPerMin

/-- Microseconds in one day. -/
def usecPerDay : Int := 24 * usecPerHour

/-- Index of the calendar day containing instant `t` (day 0 is the reference Monday). -/
def dayIndex (t : Int) : Int := t / usecPerDay

/-- Python `datetime.weekday()`: 0 = Monday .. 6 = Sunday. -/
def pyWeekday (t : Int) : Int := dayIndex t % 7

/-- Python `datetime.hour` of instant `t`. -/
def pyHour (t : Int) : Int := t / usecPerHour % 24

/-- Python `dt.replace(hour=h, minute=m, second=0, microsecond=0)`:
keep the calendar day of `t`, set the time of day to `h:m:00.000000`. -/
def replaceHM (t h m : Int) : Int :=
  dayIndex t * usecPerDay + h * usecPerHour + m * usecPerMin

/-! ## scheduling.py — `DataSourceSchedule` -/

/-- `DataSourceSchedule.EIA_UPDATE_DAY` (Wednesday). -/
def EIA_UPDATE_DAY : Int := 2
/-- `DataSourceSchedule.EIA_UPDATE_HOUR`. -/
def EIA_UPDATE_HOUR : Int := 15
/-- `DataSourceSchedule.EIA_UPDATE_MINUTE`. -/
def EIA_UPDATE_MINUTE : Int := 30
/-- `DataSourceSchedule.RBOB_MARKET_OPEN_HOUR`. -/
def RBOB_MARKET_OPEN_HOUR : Int := 14
/-- `DataSourceSchedule.RBOB_MARKET_CLOSE_HOUR`. -/
def RBOB_MARKET_CLOSE_HOUR : Int := 21
/-- `DataSourceSchedule.RETAIL_UPDATE_DAY` (Monday). -/
def RETAIL_UPDATE_DAY : Int := 0
/-- `DataSourceSchedule.RETAIL_UPDATE_HOUR`. -/
def RETAIL_UPDATE_HOUR : Int := 12

/-- `DataSourceSchedule.get_eia_update_time`, with the internal
`datetime.now()` made explicit as the argument `now`. -/
def get_eia_update_time (now : Int) : Int :=
  let days_ahead := (EIA_UPDATE_DAY - pyWeekday now) % 7
  let days_ahead :=
    if days_ahead = 0 then
      if replaceHM now EIA_UPDATE_HOUR EIA_UPDATE_MINUTE ≤ now then 7 else 0
    else days_ahead
  replaceHM (now + days_ahead * usecPerDay) EIA_UPDATE_HOUR EIA_UPDATE_MINUTE

/-- `DataSourceSchedule.is_market_hours`, with `datetime.now()` explicit. -/
def is_market_hours (now : Int) : Bool :=
  if 5 ≤ pyWeekday now then false
  else decide (RBOB_MARKET_OPEN_HOUR ≤ pyHour now ∧ pyHour now ≤ RBOB_MARKET_CLOSE_HOUR)

/-- `DataSourceSchedule.get_retail_update_time`, with `datetime.now()` explicit. -/
def get_retail_update_time (now : Int) : Int :=
  let days_ahead := (RETAIL_UPDATE_DAY - pyWeekday now) % 7
  let days_ahead :=
    if days_ahead = 0 then
      if replaceHM now RETAIL_UPDATE_HOUR 0 ≤ now then 7 else 0
    else days_ahead
  replaceHM (now + days_ahead * usecPerDay) RETAIL_UPDATE_HOUR 0

/-! ## automate_bronze_silver.py — staleness checks

`get_last_download_time` results are passed in as `Option Int`
(`none` = no readable metadata), and `datetime.now()` as `now`. -/

/-- `should_update_eia` from `automate_bronze_silver.py`. -/
def should_update_eia (force : Bool) (last : Option Int) (now : Int) : Bool :=
  if force then true
  else
    match last with
    | none => true
    | some l =>
      if 7 ≤ (now - l) / usecPerDay then true
      else if l < get_eia_update_time now ∧ get_eia_update_time now ≤ now then true
      else false

/-- `should_update_rbob` from `automate_bronze_silver.py`. -/
def should_update_rbob (force : Bool) (last : Option Int) (now : Int) : Bool :=
  if force then true
  else if !is_market_hours now then false
  else
    match last with
    | none => true
    | some l =>
      if usecPerHour ≤ now - l then true
      else false

/-- `should_update_retail` from `automate_bronze_silver.py`. -/
def should_update_retail (force : Bool) (last : Option Int) (now : Int) : Bool :=
  if force then true
  else
    match last with
    | none => true
    | some l =>
      if 7 ≤ (now - l) / usecPerDay then true
      else if l < get_retail_update_time now ∧ get_retail_update_time now ≤ now then true
      else false

/-! ## Silver processing metadata and the cascade pipeline

`save_processing_time('silver')` writes `{last_processed, layer,
bronze_sources_processed: {eia, rbob, retail}}`; `get_last_processing_time`
reads back `last_processed`.  `should_rebuild_silver` compares the current
bronze download times against `last_processed`. -/

/-- The record written by `save_processing_time('silver')`:
`last_processed` plus the `bronze_sources_processed` snapshot
(each entry `null` when the corresponding bronze metadata was absent). -/
structure SilverMeta where
  last_processed : Int
  snap_eia : Option Int
  snap_rbob : Option Int
  snap_retail : Option Int
deriving DecidableEq, Repr

/-- The loop body test of `should_rebuild_silver`:
`if download_time and download_time > last_silver_processing`. -/
def bronzeNewer (download_time : Option Int) (last_silver_processing : Int) : Bool :=
  match download_time with
  | none => false
  | some t => decide (last_silver_processing < t)

/-- `should_rebuild_silver` from `automate_bronze_silver.py`.  `meta` is the
readable silver processing metadata (`none` = never processed / unreadable),
and `eia`, `rbob`, `retail` are the current bronze download times. -/
def should_rebuild_silver (force : Bool) (meta : Option SilverMeta)
    (eia rbob retail : Option Int) : Bool :=
  if force then true
  else
    match meta with
    | none => true
    | some m =>
      bronzeNewer eia m.last_processed || bronzeNewer rbob m.last_processed ||
        bronzeNewer retail m.last_processed

/-- On-disk freshness state: the three bronze `*_metadata.json` timestamps
and the silver processing metadata. -/
structure Store where
  eia : Option Int
  rbob : Option Int
  retail : Option Int
  silver : Option SilverMeta
deriving DecidableEq, Repr

/-- Outcomes of the external task executions in one cycle: for each script,
whether `run_script` reports success, and for the optional silver scripts
whether the script file exists. -/
structure TaskEnv where
  eiaOk : Bool
  rbobOk : Bool
  retailOk : Bool
  cleanRbobOk : Bool
  cleanRetailOk : Bool
  cleanEiaOk : Bool
  padd3Exists : Bool
  noaaExists : Bool
  hurricaneExists : Bool
  padd3Ok : Bool
  noaaOk : Bool
  hurricaneOk : Bool
deriving DecidableEq, Repr

/-- Per-source entries of the `results` dict built by `update_bronze_layer`
(`none` = skipped, `some b` = ran with success flag `b`). -/
structure BronzeResults where
  eia : Option Bool
  rbob : Option Bool
  retail : Option Bool
deriving DecidableEq, Repr

/-- `update_bronze_layer` from `automate_bronze_silver.py`: check each source,
run its download script when stale, and on success write its download time
(`save_download_time`, recorded as `now`). -/
def update_bronze_layer (force : Bool) (now : Int) (env : TaskEnv) (st : Store) :
    BronzeResults × Store :=
  let eiaStep : Option Bool × Store :=
    if should_update_eia force st.eia now then
      (some env.eiaOk, if env.eiaOk then { st with eia := some now } else st)
    else (none, st)
  let st1 := eiaStep.2
  let rbobStep : Option Bool × Store :=
    if should_update_rbob force st1.rbob now then
      (some env.rbobOk, if env.rbobOk then { st1 with rbob := some now } else st1)
    else (none, st1)
  let st2 := rbobStep.2
  let retailStep : Option Bool × Store :=
    if should_update_retail force st2.retail now then
      (some env.retailOk, if env.retailOk then { st2 with retail := some now } else st2)
    else (none, st2)
  (⟨eiaStep.1, rbobStep.1, retailStep.1⟩, retailStep.2)

/-- `update_silver_layer` from `automate_bronze_silver.py`: run the three
mandatory cleaning scripts (collecting `all_success`), then the optional
scripts that exist (results discarded), and call `save_processing_time`
only when `all_success`.  Returns `(all_success, executed script runs, store)`;
the executed list records each `run_script` call and its result. -/
def update_silver_layer (now : Int) (env : TaskEnv) (st : Store) :
    Bool × List (String × Bool) × Store :=
  let mandatory : List (String × Bool) :=
    [("clean_rbob_to_silver.py", env.cleanRbobOk),
     ("clean_retail_to_silver.py", env.cleanRetailOk),
     ("clean_eia_to_silver.py", env.cleanEiaOk)]
  let all_success := mandatory.foldl (fun acc p => if p.2 then acc else false) true
  let optional : List (String × Bool × Bool) :=
    [("download_padd3_share.py", env.padd3Exists, env.padd3Ok),
     ("download_noaa_temp.py", env.noaaExists, env.noaaOk),
     ("process_hurricane_risk_october.py", env.hurricaneExists, env.hurricaneOk)]
  let optRuns := optional.filterMap fun p =>
    if p.2.1 then some (p.1, p.2.2) else none
  let st' :=
    if all_success then
      { st with silver := some ⟨now, st.eia, st.rbob, st.retail⟩ }
    else st
  (all_success, mandatory ++ optRuns, st')

/-- Result of one `run_pipeline` call: its return value (the process exit
code in one-shot mode), whether the silver rebuild branch was taken, the
bronze results dict, and the final on-disk state. -/
structure PipelineResult where
  exitCode : Nat
  silverAttempted : Bool
  bronze : BronzeResults
  store : Store
deriving DecidableEq, Repr

/-- `run_pipeline` from `automate_bronze_silver.py`. -/
def run_pipeline (force : Bool) (now : Int) (env : TaskEnv) (st : Store) :
    PipelineResult :=
  let step := update_bronze_layer force now env st
  let br := step.1
  let st1 := step.2
  let bronze_updated := br.eia == some true || br.rbob == some true ||
    br.retail == some true
  if bronze_updated || should_rebuild_silver force st1.silver st1.eia st1.rbob st1.retail then
    let silverStep := update_silver_layer now env st1
    if silverStep.1 then ⟨0, true, br, silverStep.2.2⟩
    else ⟨1, true, br, silverStep.2.2⟩
  else ⟨0, false, br, st1⟩

/-- The one-shot exit path of `automate_bronze.py`'s `main`: run
`update_bronze_layer`, then exit 1 when any source result is `False`. -/
def automate_bronze_main (force : Bool) (now : Int) (env : TaskEnv) (st : Store) :
    Nat :=
  let step := update_bronze_layer force now env st
  let br := step.1
  if br.eia == some false || br.rbob == some false || br.retail == some false then 1
  else 0

/-! ## script_runner.py — retrying task runner

`random.random()` is modelled by an oracle `jit : Nat → ℚ` giving the draw
made before the sleep that follows attempt `a`; per-attempt outcomes by an
oracle `outcome : Nat → Bool`.  The observable trace (attempt count and the
sequence of sleep durations) is returned alongside the boolean result. -/

/-- `_calculate_backoff` from `script_runner.py`: `base_wait = 30 * attempt`,
and with jitter a factor `1 + (random() * 0.4 - 0.2)`. -/
def calculate_backoff (attempt : Nat) (add_jitter : Bool) (j : ℚ) : ℚ :=
  let base_wait : ℚ := 30 * attempt
  if add_jitter then base_wait * (1 + (j * (2/5) - 1/5))
  else base_wait

/-- Observable result of `run_script_with_retry`: the returned boolean, the
number of attempts actually executed, and the `time.sleep` durations in order. -/
structure RunResult where
  success : Bool
  attempts : Nat
  sleeps : List ℚ
deriving DecidableEq, Repr

/-- The `for attempt in range(1, max_retries + 1)` loop of
`run_script_with_retry`: `a` is the current attempt number, `rem` the number
of loop iterations still available (including this one).  A sleep of
`_calculate_backoff(attempt, add_jitter)` occurs after a failed attempt
only when `attempt < max_retries`, i.e. when further iterations remain. -/
def retryLoop (outcome : Nat → Bool) (jit : Nat → ℚ) (add_jitter : Bool) :
    Nat → Nat → RunResult
  | _, 0 => ⟨false, 0, []⟩
  | a, rem + 1 =>
    if outcome a then ⟨true, 1, []⟩
    else if rem = 0 then ⟨false, 1, []⟩
    else
      let r := retryLoop outcome jit add_jitter (a + 1) rem
      ⟨r.success, r.attempts + 1, calculate_backoff a add_jitter (jit a) :: r.sleeps⟩

/-- `run_script_with_retry` from `script_runner.py`: immediate failure when
the script file does not exist, otherwise the retry loop starting at
attempt 1 with `max_retries` iterations. -/
def run_script_with_retry (script_exists : Bool) (max_retries : Nat)
    (outcome : Nat → Bool) (jit : Nat → ℚ) (add_jitter : Bool) : RunResult :=
  if script_exists then retryLoop outcome jit add_jitter 1 max_retries
  else ⟨false, 0, []⟩

/-! ## metadata.py — freshness store

`save_download_time` writes `{'last_download': datetime.now().isoformat(),
'source': source}`; `get_last_download_time` reads the file, takes
`metadata.get('last_download')` and parses it with
`datetime.fromisoformat`, returning `None` on any failure.  The wall-clock
value is a Python naive `datetime` (year…microsecond); `isoformat`
produces `YYYY-MM-DDTHH:MM:SS[.ffffff]` with the fractional part omitted
exactly when `microsecond == 0`. -/

/-- Field representation of a Python naive `datetime`. -/
structure PyDateTime where
  year : Nat
  month : Nat
  day : Nat
  hour : Nat
  minute : Nat
  second : Nat
  microsecond : Nat
deriving DecidableEq, Repr

/-- Gregorian leap-year test, as validated by the `datetime` constructor. -/
def isLeapYear (y : Nat) : Bool :=
  y % 4 == 0 && (y % 100 != 0 || y % 400 == 0)

/-- Days in a month, as validated by the `datetime` constructor. -/
def daysInMonth (y m : Nat) : Nat :=
  if m = 2 then (if isLeapYear y then 29 else 28)
  else if m = 4 ∨ m = 6 ∨ m = 9 ∨ m = 11 then 30
  else 31

/-- Range constraints a Python `datetime` value satisfies by construction. -/
def PyDateTime.Valid (t : PyDateTime) : Prop :=
  1 ≤ t.year ∧ t.year ≤ 9999 ∧ 1 ≤ t.month ∧ t.month ≤ 12 ∧ 1 ≤ t.day ∧
    t.day ≤ daysInMonth t.year t.month ∧ t.hour ≤ 23 ∧ t.minute ≤ 59 ∧
    t.second ≤ 59 ∧ t.microsecond ≤ 999999

instance (t : PyDateTime) : Decidable t.Valid := by
  unfold PyDateTime.Valid; infer_instance

/-- Zero-padded fixed-width decimal rendering of `n` on `k` digits,
most significant digit first (the field formatting used by `isoformat`). -/
def padChars : Nat → Nat → List Char
  | 0, _ => []
  | k + 1, n => Nat.digitChar (n / 10 ^ k) :: padChars k (n % 10 ^ k)

/-- `datetime.isoformat()` of `t`, as a character list. -/
def toIsoChars (t : PyDateTime) : List Char :=
  padChars 4 t.year ++ '-' :: padChars 2 t.month ++ '-' :: padChars 2 t.day ++
    'T' :: padChars 2 t.hour ++ ':' :: padChars 2 t.minute ++
    ':' :: padChars 2 t.second ++
    (if t.microsecond = 0 then [] else '.' :: padChars 6 t.microsecond)

/-- Decimal digit value of a character, `none` for non-digits. -/
def parseDigit (c : Char) : Option Nat :=
  if 48 ≤ c.toNat ∧ c.toNat ≤ 57 then some (c.toNat - 48) else none

/-- Parse exactly `k` decimal digits (accumulator `acc`), returning the value
and the remaining characters. -/
def parseFixedAux : Nat → Nat → List Char → Option (Nat × List Char)
  | 0, acc, rest => some (acc, rest)
  | _ + 1, _, [] => none
  | k + 1, acc, c :: rest =>
    match parseDigit c with
    | none => none
    | some d => parseFixedAux k (acc * 10 + d) rest

/-- Parse exactly `k` decimal digits. -/
def parseFixed (k : Nat) (cs : List Char) : Option (Nat × List Char) :=
  parseFixedAux k 0 cs

/-- Consume one expected literal character. -/
def expectChar (c : Char) : List Char → Option (List Char)
  | [] => none
  | x :: rest => if x = c then some rest else none

/-- `datetime.fromisoformat` on the canonical `isoformat` shape
`YYYY-MM-DDTHH:MM:SS[.ffffff]`, including the constructor's field-range
validation; `none` models the `ValueError` raised on malformed input. -/
def fromIsoChars (cs : List Char) : Option PyDateTime :=
  match parseFixed 4 cs with
  | none => none
  | some (y, r1) =>
  match expectChar '-' r1 with
  | none => none
  | some r2 =>
  match parseFixed 2 r2 with
  | none => none
  | some (mo, r3) =>
  match expectChar '-' r3 with
  | none => none
  | some r4 =>
  match parseFixed 2 r4 with
  | none => none
  | some (d, r5) =>
  match expectChar 'T' r5 with
  | none => none
  | some r6 =>
  match parseFixed 2 r6 with
  | none => none
  | some (h, r7) =>
  match expectChar ':' r7 with
  | none => none
  | some r8 =>
  match parseFixed 2 r8 with
  | none => none
  | some (mi, r9) =>
  match expectChar ':' r9 with
  | none => none
  | some r10 =>
  match parseFixed 2 r10 with
  | none => none
  | some (sec, r11) =>
  match (match r11 with
    | [] => some 0
    | r =>
      match expectChar '.' r with
      | none => none
      | some rest2 =>
        match parseFixed 6 rest2 with
        | none => none
        | some (uv, r12) =>
          match r12 with
          | [] => some uv
          | _ => none) with
  | none => none
  | some u =>
  if 1 ≤ y ∧ y ≤ 9999 ∧ 1 ≤ mo ∧ mo ≤ 12 ∧ 1 ≤ d ∧ d ≤ daysInMonth y mo ∧
      h ≤ 23 ∧ mi ≤ 59 ∧ sec ≤ 59 then
    some ⟨y, mo, d, h, mi, sec, u⟩
  else none

/-- Observable states of one `{source}_metadata.json` file: missing,
present but unreadable (I/O error, corrupt JSON), or parsed JSON with an
optional `last_download` string field. -/
inductive FileState where
  | absent
  | unreadable
  | parsed (last_download : Option String) (source : String)
deriving DecidableEq

/-- `get_last_download_time` from `metadata.py`: `None` for a missing file;
the `try/except` turns every read or parse failure into `None` as well. -/
def get_last_download_time (fs : FileState) : Option PyDateTime :=
  match fs with
  | .absent => none
  | .unreadable => none
  | .parsed ld _ =>
    match ld with
    | none => none
    | some s => fromIsoChars s.data

/-- `save_download_time` from `metadata.py`: on success the file holds
`{'last_download': now.isoformat(), 'source': source}`; a write failure
(modelled here as the open call failing, leaving the file as it was) is
caught, logged, and the function returns normally. -/
def save_download_time (now : PyDateTime) (source : String) (write_ok : Bool)
    (fs : FileState) : FileState :=
  if write_ok then .parsed (some (String.mk (toIsoChars now))) source
  else fs

/-! ## Specification-side definitions

These follow the wording of the specification (not the code) and exist to
be compared with the definitions above. -/

/-- Specified trigger for one upstream unit of a layer: the upstream's
current last-success timestamp is strictly newer than the value recorded
in the layer's upstream snapshot, an upstream absent from the snapshot
being treated as newer; an upstream with no current timestamp is not in
`U` and triggers nothing. -/
def upstreamTriggersSpec (current snap : Option Int) : Bool :=
  match current with
  | none => false
  | some t =>
    match snap with
    | none => true
    | some s => decide (s < t)

/-- Specified `LayerNeedsRebuild` (with `force = false`): true iff the layer
record is absent or some upstream triggers per `upstreamTriggersSpec`. -/
def layerNeedsRebuildSpec (meta : Option SilverMeta)
    (eia rbob retail : Option Int) : Bool :=
  match meta with
  | none => true
  | some m =>
    upstreamTriggersSpec eia m.snap_eia || upstreamTriggersSpec rbob m.snap_rbob ||
      upstreamTriggersSpec retail m.snap_retail

/-- Specified "most recent occurrence of (target weekday, target hour:minute)
at or before `now`". -/
def specMostRecentOccurrence (wd h m now : Int) : Int :=
  let cand := replaceHM (now - ((pyWeekday now - wd) % 7) * usecPerDay) h m
  if cand ≤ now then cand else cand - 7 * usecPerDay

end Gas


namespace Gas

/-- Helper: the value returned by `get_eia_update_time` is always strictly
in the future of the `now` it was computed from. -/
theorem lt_get_eia_update_time (now : Int) : now < get_eia_update_time now := by
  unfold get_eia_update_time replaceHM dayIndex pyWeekday
    EIA_UPDATE_DAY EIA_UPDATE_HOUR EIA_UPDATE_MINUTE
  simp only [usecPerDay, usecPerHour, usecPerMin, usecPerSec]
  split
  · split <;> omega
  · omega

/-- Helper: the value returned by `get_retail_update_time` is always
strictly in the future of the `now` it was computed from. -/
theorem lt_get_retail_update_time (now : Int) : now < get_retail_update_time now := by
  unfold get_retail_update_time replaceHM dayIndex pyWeekday
    RETAIL_UPDATE_DAY RETAIL_UPDATE_HOUR
  simp only [usecPerDay, usecPerHour, usecPerMin, usecPerSec]
  split
  · split <;> omega
  · omega

/-- C1: the layer-rebuild decision is NOT the specified snapshot comparison:
with silver metadata present (`last_processed = 100`, snapshot records EIA
at 10) and EIA currently at 50, the spec mandates a rebuild (50 > 10) but
`should_rebuild_silver` answers false (it compares 50 against
`last_processed = 100`, ignoring the snapshot). -/
theorem rebuild_decision_ignores_snapshot :
    should_rebuild_silver false (some ⟨100, some 10, none, none⟩)
      (some 50) none none = false ∧
    layerNeedsRebuildSpec (some ⟨100, some 10, none, none⟩)
      (some 50) none none = true := by
  exact ⟨rfl, rfl⟩

/-- C1 (amended): with `force = false`, `should_rebuild_silver` returns true
iff the silver processing metadata is absent, or some bronze source has a
current download time that is present and strictly newer than the metadata's
`last_processed` timestamp; the upstream snapshot stored in the metadata is
never consulted, and a source with no current download time never triggers. -/
theorem rebuild_decision_characterization (meta : Option SilverMeta)
    (eia rbob retail : Option Int) :
    should_rebuild_silver false meta eia rbob retail = true ↔
      meta = none ∨ ∃ m, meta = some m ∧
        ((∃ t, eia = some t ∧ m.last_processed < t) ∨
         (∃ t, rbob = some t ∧ m.last_processed < t) ∨
         (∃ t, retail = some t ∧ m.last_processed < t)) := by
  cases meta with
  | none => simp [should_rebuild_silver]
  | some m =>
    cases eia <;> cases rbob <;> cases retail <;>
      simp [should_rebuild_silver, bronzeNewer, or_assoc]

/-- C2: the fixed-weekly staleness checks do not implement the specified
rule.  First two conjuncts: for every `now` and recorded `lastSuccess`,
`should_update_eia` and `should_update_retail` reduce to the 7-day
maximum-age test alone — the schedule branch compares the NEXT scheduled
occurrence (always strictly in the future of `now`) against `now`, so it
never fires.  Remaining conjuncts evaluate the failing input:
`lastSuccess` = Wednesday 15:00, `now` = the same Wednesday 16:00: the most
recent Wednesday-15:30 occurrence at or before `now` lies strictly after
`lastSuccess` and `now - lastSuccess` is far below 7 days, so the claimed
rule answers due, yet `should_update_eia` answers false. -/
theorem eia_staleness_check_ignores_schedule :
    (∀ now l, should_update_eia false (some l) now =
      decide (7 ≤ (now - l) / usecPerDay)) ∧
    (∀ now l, should_update_retail false (some l) now =
      decide (7 ≤ (now - l) / usecPerDay)) ∧
    should_update_eia false (some (2 * usecPerDay + 15 * usecPerHour))
      (2 * usecPerDay + 16 * usecPerHour) = false ∧
    2 * usecPerDay + 15 * usecPerHour <
      specMostRecentOccurrence 2 15 30 (2 * usecPerDay + 16 * usecPerHour) ∧
    specMostRecentOccurrence 2 15 30 (2 * usecPerDay + 16 * usecPerHour) ≤
      2 * usecPerDay + 16 * usecPerHour ∧
    (2 * usecPerDay + 16 * usecPerHour) - (2 * usecPerDay + 15 * usecPerHour) <
      7 * usecPerDay := by
  refine ⟨fun now l => ?_, fun now l => ?_, by decide, by decide, by decide, by decide⟩
  · have hgt := lt_get_eia_update_time now
    by_cases h7 : 7 ≤ (now - l) / usecPerDay
    · simp [should_update_eia, h7]
    · have hcond : ¬(l < get_eia_update_time now ∧ get_eia_update_time now ≤ now) :=
        fun h => absurd h.2 (by omega)
      simp [should_update_eia, h7, hcond]
  · have hgt := lt_get_retail_update_time now
    by_cases h7 : 7 ≤ (now - l) / usecPerDay
    · simp [should_update_retail, h7]
    · have hcond : ¬(l < get_retail_update_time now ∧ get_retail_update_time now ≤ now) :=
        fun h => absurd h.2 (by omega)
      simp [should_update_retail, h7, hcond]

/-- C3: the BusinessHoursWindow rule violates "absent lastSuccess is always
due": on Saturday 15:00 with no recorded RBOB download, `should_update_rbob`
(with `force = false`) returns false, because the market-hours gate is
checked before the missing-history check. -/
theorem rbob_absent_history_not_due_on_weekend :
    should_update_rbob false none (5 * usecPerDay + 15 * usecPerHour) = false := by
  decide

/-- C3 (amended): with `force = false` and no recorded last success, the
fixed-weekly checks (EIA, Retail) are always due, while the RBOB check is
due exactly when `now` is inside market hours — outside market hours it
returns not-due even with no history. -/
theorem absent_history_due_characterization (now : Int) :
    should_update_eia false none now = true ∧
    should_update_retail false none now = true ∧
    should_update_rbob false none now = is_market_hours now := by
  refine ⟨rfl, rfl, ?_⟩
  by_cases h : is_market_hours now <;> simp [should_update_rbob, h]

/-- C5: a freshness-store read failure is not reported as a distinct error:
an unreadable or corrupt metadata file yields `none`, the same value as a
missing file, so the caller cannot distinguish a store error from "record
absent". -/
theorem store_read_failure_looks_absent :
    get_last_download_time .unreadable = none ∧
    get_last_download_time .absent = none :=
  ⟨rfl, rfl⟩

/-- C5 (amended): `get_last_download_time` maps every read/parse failure to
`none`, indistinguishable from an absent record, and `save_download_time`
catches a write failure, logs it, and returns normally with the store
unchanged — neither function surfaces a distinct store error. -/
theorem store_errors_swallowed (t : PyDateTime) (src : String) (fs : FileState) :
    get_last_download_time .unreadable = get_last_download_time .absent ∧
    save_download_time t src false fs = fs :=
  ⟨rfl, rfl⟩

/-- C10: RBOB market hours are inclusive of the close hour 21: on any
weekday instant with hour between 14 and 21 inclusive `is_market_hours` is
true (so the window extends through 21:59:59), and on Saturday and Sunday
it is false at every hour. -/
theorem market_hours_characterization (t : Int) :
    (pyWeekday t ≤ 4 → 14 ≤ pyHour t ∧ pyHour t ≤ 21 → is_market_hours t = true) ∧
    (5 ≤ pyWeekday t → is_market_hours t = false) := by
  constructor
  · intro hwd hh
    unfold is_market_hours RBOB_MARKET_OPEN_HOUR RBOB_MARKET_CLOSE_HOUR
    rw [if_neg (by omega)]
    simpa using hh
  · intro h
    simp [is_market_hours, h]

/-- Witness for C10: Monday 15:00 is inside market hours, Saturday 15:00
is not. -/
theorem market_hours_characterization_witness :
    is_market_hours (15 * usecPerHour) = true ∧
    is_market_hours (5 * usecPerDay + 15 * usecPerHour) = false :=
  ⟨(market_hours_characterization (15 * usecPerHour)).1 (by decide) (by decide),
   (market_hours_characterization (5 * usecPerDay + 15 * usecPerHour)).2 (by decide)⟩

/-- Helper: closed form of one `update_bronze_layer` pass — each source's
reported outcome is its own staleness decision applied to its own prior
record, and a source's timestamp advances to `now` exactly when it was due
and its task succeeded. -/
theorem update_bronze_layer_eq (force : Bool) (now : Int) (env : TaskEnv)
    (st : Store) :
    update_bronze_layer force now env st =
      (⟨(if should_update_eia force st.eia now then some env.eiaOk else none),
        (if should_update_rbob force st.rbob now then some env.rbobOk else none),
        (if should_update_retail force st.retail now then some env.retailOk else none)⟩,
       ⟨(if should_update_eia force st.eia now && env.eiaOk then some now else st.eia),
        (if should_update_rbob force st.rbob now && env.rbobOk then some now else st.rbob),
        (if should_update_retail force st.retail now && env.retailOk then some now else st.retail),
        st.silver⟩) := by
  cases h1 : should_update_eia force st.eia now <;>
  cases he : env.eiaOk <;>
  simp only [update_bronze_layer, h1, he, Bool.false_and, Bool.true_and,
    if_true, if_false, Bool.false_eq_true, ite_false, ite_true] <;>
  cases h3 : should_update_rbob force st.rbob now <;>
  cases hr : env.rbobOk <;>
  simp only [h3, hr, Bool.false_and, Bool.true_and, if_true, if_false,
    Bool.false_eq_true, ite_false, ite_true] <;>
  cases h5 : should_update_retail force st.retail now <;>
  cases ht : env.retailOk <;>
  simp [h5, ht]

/-- Helper: whenever some bronze source succeeded this cycle,
`run_pipeline` takes the silver-rebuild branch. -/
theorem run_pipeline_attempts_silver_of_success (force : Bool) (now : Int)
    (env : TaskEnv) (st : Store)
    (h : (update_bronze_layer force now env st).1.eia = some true ∨
      (update_bronze_layer force now env st).1.rbob = some true ∨
      (update_bronze_layer force now env st).1.retail = some true) :
    (run_pipeline force now env st).silverAttempted = true := by
  have hb : ((update_bronze_layer force now env st).1.eia == some true
      || (update_bronze_layer force now env st).1.rbob == some true
      || (update_bronze_layer force now env st).1.retail == some true) = true := by
    rcases h with h | h | h <;> simp [h]
  unfold run_pipeline
  dsimp only
  rw [hb]
  simp [apply_ite PipelineResult.silverAttempted]

/-- C6: partial failure isolation in one cycle: a source whose task fails
keeps its prior freshness record; each source's outcome is exactly its own
staleness decision applied to its own prior record and its own task result
(a failure elsewhere does not perturb it); and the silver rebuild is
attempted whenever any source succeeded this cycle. -/
theorem partial_failure_isolation (force : Bool) (now : Int) (env : TaskEnv)
    (st : Store) :
    ((update_bronze_layer force now env st).1.eia = some false →
      (update_bronze_layer force now env st).2.eia = st.eia) ∧
    ((update_bronze_layer force now env st).1.rbob = some false →
      (update_bronze_layer force now env st).2.rbob = st.rbob) ∧
    ((update_bronze_layer force now env st).1.retail = some false →
      (update_bronze_layer force now env st).2.retail = st.retail) ∧
    (update_bronze_layer force now env st).1.eia =
      (if should_update_eia force st.eia now then some env.eiaOk else none) ∧
    (update_bronze_layer force now env st).1.rbob =
      (if should_update_rbob force st.rbob now then some env.rbobOk else none) ∧
    (update_bronze_layer force now env st).1.retail =
      (if should_update_retail force st.retail now then some env.retailOk else none) ∧
    (((update_bronze_layer force now env st).1.eia = some true ∨
      (update_bronze_layer force now env st).1.rbob = some true ∨
      (update_bronze_layer force now env st).1.retail = some true) →
      (run_pipeline force now env st).silverAttempted = true) := by
  refine ⟨?_, ?_, ?_, ?_, ?_, ?_,
    run_pipeline_attempts_silver_of_success force now env st⟩ <;>
  rw [update_bronze_layer_eq]
  · cases h1 : should_update_eia force st.eia now <;>
      cases he : env.eiaOk <;> simp_all
  · cases h3 : should_update_rbob force st.rbob now <;>
      cases hr : env.rbobOk <;> simp_all
  · cases h5 : should_update_retail force st.retail now <;>
      cases ht : env.retailOk <;> simp_all

/-- Helper: the `all_success` flag computed by `update_silver_layer` is the
conjunction of the three mandatory cleaning results. -/
theorem update_silver_layer_fst (now : Int) (env : TaskEnv) (st : Store) :
    (update_silver_layer now env st).1 =
      (env.cleanRbobOk && env.cleanRetailOk && env.cleanEiaOk) := by
  cases hb : env.cleanRbobOk <;> cases ht : env.cleanRetailOk <;>
    cases he : env.cleanEiaOk <;> simp [update_silver_layer, hb, ht, he]

/-- Helper: the store produced by `update_silver_layer` — the silver record
is written (with the current bronze snapshot) iff all three mandatory
cleaning scripts succeeded. -/
theorem update_silver_layer_store (now : Int) (env : TaskEnv) (st : Store) :
    (update_silver_layer now env st).2.2 =
      (if env.cleanRbobOk && env.cleanRetailOk && env.cleanEiaOk then
        { st with silver := some ⟨now, st.eia, st.rbob, st.retail⟩ }
      else st) := by
  cases hb : env.cleanRbobOk <;> cases ht : env.cleanRetailOk <;>
    cases he : env.cleanEiaOk <;> simp [update_silver_layer, hb, ht, he]

/-- C7: during a silver rebuild every mandatory cleaning sub-task is
attempted regardless of the others' outcomes, the processing metadata is
written iff all three mandatory sub-tasks succeeded, and the optional
sub-task results (PADD3 share, NOAA temperature, hurricane risk) influence
neither the success flag nor the resulting store. -/
theorem silver_rebuild_semantics (now : Int) (env : TaskEnv) (st : Store) :
    (("clean_rbob_to_silver.py", env.cleanRbobOk) ∈ (update_silver_layer now env st).2.1 ∧
     ("clean_retail_to_silver.py", env.cleanRetailOk) ∈ (update_silver_layer now env st).2.1 ∧
     ("clean_eia_to_silver.py", env.cleanEiaOk) ∈ (update_silver_layer now env st).2.1) ∧
    ((update_silver_layer now env st).1 =
      (env.cleanRbobOk && env.cleanRetailOk && env.cleanEiaOk)) ∧
    ((update_silver_layer now env st).1 = true →
      (update_silver_layer now env st).2.2 =
        { st with silver := some ⟨now, st.eia, st.rbob, st.retail⟩ }) ∧
    ((update_silver_layer now env st).1 = false →
      (update_silver_layer now env st).2.2 = st) ∧
    (∀ p n h : Bool,
      (update_silver_layer now
        { env with padd3Ok := p, noaaOk := n, hurricaneOk := h } st).1 =
        (update_silver_layer now env st).1 ∧
      (update_silver_layer now
        { env with padd3Ok := p, noaaOk := n, hurricaneOk := h } st).2.2 =
        (update_silver_layer now env st).2.2) := by
  refine ⟨⟨?_, ?_, ?_⟩, update_silver_layer_fst now env st, ?_, ?_, ?_⟩
  · simp [update_silver_layer]
  · simp [update_silver_layer]
  · simp [update_silver_layer]
  · intro hok
    rw [update_silver_layer_store]
    rw [update_silver_layer_fst] at hok
    rw [if_pos hok]
  · intro hok
    rw [update_silver_layer_store]
    rw [update_silver_layer_fst] at hok
    simp [hok]
  · intro p n h
    constructor
    · rw [update_silver_layer_fst, update_silver_layer_fst]
    · rw [update_silver_layer_store, update_silver_layer_store]

/-- Witness for C7: with every mandatory script succeeding, the silver
record is written with the current bronze snapshot. -/
theorem silver_rebuild_semantics_witness :
    (update_silver_layer 5
      ⟨true, true, true, true, true, true, true, true, true, false, false, false⟩
      ⟨some 1, some 2, some 3, none⟩).2.2 =
      ⟨some 1, some 2, some 3, some ⟨5, some 1, some 2, some 3⟩⟩ :=
  (silver_rebuild_semantics 5
    ⟨true, true, true, true, true, true, true, true, true, false, false, false⟩
    ⟨some 1, some 2, some 3, none⟩).2.2.1 (by decide)

/-- C4: a failed bronze source does not make the one-shot pipeline exit
non-zero: with EIA due and failing, RBOB due and succeeding, and all silver
cleaning succeeding, `run_pipeline` returns exit code 0 even though the EIA
unit failed after exhausting its retries. -/
theorem pipeline_exit_zero_despite_failed_source :
    (run_pipeline false (2 * usecPerDay + 15 * usecPerHour)
      ⟨false, true, true, true, true, true, false, false, false, false, false, false⟩
      ⟨none, none, some (2 * usecPerDay + 15 * usecPerHour), none⟩).exitCode = 0 ∧
    (run_pipeline false (2 * usecPerDay + 15 * usecPerHour)
      ⟨false, true, true, true, true, true, false, false, false, false, false, false⟩
      ⟨none, none, some (2 * usecPerDay + 15 * usecPerHour), none⟩).bronze.eia
      = some false := by
  exact ⟨by decide, by decide⟩

/-- C4 (amended): `run_pipeline` exits 1 exactly when the silver rebuild was
attempted and some mandatory cleaning sub-task failed — bronze source
failures alone never affect its exit code — while `automate_bronze.py`'s
one-shot mode exits 1 exactly when some source update ran and failed. -/
theorem pipeline_exit_code_characterization (force : Bool) (now : Int)
    (env : TaskEnv) (st : Store) :
    ((run_pipeline force now env st).exitCode =
      (if (run_pipeline force now env st).silverAttempted &&
          !(env.cleanRbobOk && env.cleanRetailOk && env.cleanEiaOk) then 1 else 0)) ∧
    (automate_bronze_main force now env st = 1 ↔
      (update_bronze_layer force now env st).1.eia = some false ∨
      (update_bronze_layer force now env st).1.rbob = some false ∨
      (update_bronze_layer force now env st).1.retail = some false) := by
  constructor
  · unfold run_pipeline
    dsimp only
    split
    · rw [update_silver_layer_fst]
      cases hb : env.cleanRbobOk <;> cases ht : env.cleanRetailOk <;>
        cases he : env.cleanEiaOk <;> simp [hb, ht, he]
    · simp
  · unfold automate_bronze_main
    dsimp only
    split
    next hcond =>
      simp only [Bool.or_eq_true, beq_iff_eq] at hcond
      simpa [or_assoc] using hcond
    next hcond =>
      simp only [Bool.or_eq_true, beq_iff_eq] at hcond
      simpa [or_assoc, and_assoc] using hcond

/-- Witness for C6: with EIA due but failing and RBOB due and succeeding,
the EIA record is untouched and the silver rebuild is still attempted. -/
theorem partial_failure_isolation_witness :
    (update_bronze_layer false (2 * usecPerDay + 15 * usecPerHour)
      ⟨false, true, true, true, true, true, false, false, false, false, false, false⟩
      ⟨none, none, some (2 * usecPerDay + 15 * usecPerHour), none⟩).2.eia = none ∧
    (run_pipeline false (2 * usecPerDay + 15 * usecPerHour)
      ⟨false, true, true, true, true, true, false, false, false, false, false, false⟩
      ⟨none, none, some (2 * usecPerDay + 15 * usecPerHour), none⟩).silverAttempted
      = true :=
  ⟨(partial_failure_isolation false (2 * usecPerDay + 15 * usecPerHour)
      ⟨false, true, true, true, true, true, false, false, false, false, false, false⟩
      ⟨none, none, some (2 * usecPerDay + 15 * usecPerHour), none⟩).1 (by decide),
   (partial_failure_isolation false (2 * usecPerDay + 15 * usecPerHour)
      ⟨false, true, true, true, true, true, false, false, false, false, false, false⟩
      ⟨none, none, some (2 * usecPerDay + 15 * usecPerHour), none⟩).2.2.2.2.2.2
      (Or.inr (Or.inl (by decide)))⟩

/-- Helper: the backoff value for attempt `a ≥ 1` with a jitter draw in
`[0, 1)` lies in `[0.8, 1.2) × (30 a)`. -/
theorem calculate_backoff_bounds (a : Nat) (ha : 1 ≤ a) (j : ℚ)
    (h0 : 0 ≤ j) (h1 : j < 1) :
    (24 : ℚ) * a ≤ calculate_backoff a true j ∧
      calculate_backoff a true j < 36 * a := by
  have haq : (1 : ℚ) ≤ a := by exact_mod_cast ha
  unfold calculate_backoff
  rw [if_pos (by trivial)]
  constructor <;> nlinarith

/-- Helper: when every attempt fails, the retry loop starting at attempt
`a` with `rem` iterations left runs all of them, reports failure, and
sleeps after every attempt but the last. -/
theorem retryLoop_all_fail (outcome : Nat → Bool) (jit : Nat → ℚ)
    (hfail : ∀ a, outcome a = false) :
    ∀ rem a, retryLoop outcome jit true a rem =
      ⟨false, rem, (List.range (rem - 1)).map
        (fun i => calculate_backoff (a + i) true (jit (a + i)))⟩ := by
  intro rem
  induction rem with
  | zero => intro a; rfl
  | succ n ih =>
    intro a
    cases n with
    | zero => simp [retryLoop, hfail a]
    | succ m =>
      rw [retryLoop, hfail a]
      simp only [Bool.false_eq_true, if_false, Nat.succ_ne_zero, ite_false]
      rw [ih (a + 1)]
      simp only [Nat.add_sub_cancel, List.range_succ_eq_map, List.map_cons,
        List.map_map, Nat.add_zero]
      refine congrArg (RunResult.mk false (m + 1 + 1)) ?_
      refine congrArg₂ List.cons rfl ?_
      refine congrArg (fun f => List.map f (List.range m)) ?_
      funext i
      have hx : a + 1 + i = a + (i + 1) := by omega
      simp [Function.comp, Nat.succ_eq_add_one, hx]

/-- C8: with the script present and every attempt failing,
`run_script_with_retry` with `max_retries = N` executes exactly `N`
attempts and returns failure; it sleeps only between consecutive attempts
(`N - 1` sleeps, none after the last), each sleep being
`30 * attemptNumber` scaled by the jitter factor `1 + (draw * 0.4 - 0.2)`,
which for draws in `[0, 1)` keeps every sleep within ±20% of
`30 * attemptNumber` and in particular strictly positive. -/
theorem retry_exhaustion_and_backoff (N : Nat) (outcome : Nat → Bool)
    (jit : Nat → ℚ) (hfail : ∀ a, outcome a = false)
    (hj : ∀ a, 0 ≤ jit a ∧ jit a < 1) :
    (run_script_with_retry true N outcome jit true).success = false ∧
    (run_script_with_retry true N outcome jit true).attempts = N ∧
    (run_script_with_retry true N outcome jit true).sleeps =
      (List.range (N - 1)).map
        (fun i => calculate_backoff (1 + i) true (jit (1 + i))) ∧
    (∀ s ∈ (run_script_with_retry true N outcome jit true).sleeps, 0 < s) ∧
    (∀ i : Nat,
      (24 : ℚ) * ((1 + i : Nat) : ℚ) ≤
        calculate_backoff (1 + i) true (jit (1 + i)) ∧
      calculate_backoff (1 + i) true (jit (1 + i)) <
        (36 : ℚ) * ((1 + i : Nat) : ℚ)) := by
  have hr : run_script_with_retry true N outcome jit true =
      ⟨false, N, (List.range (N - 1)).map
        (fun i => calculate_backoff (1 + i) true (jit (1 + i)))⟩ := by
    unfold run_script_with_retry
    rw [if_pos rfl]
    exact retryLoop_all_fail outcome jit hfail N 1
  refine ⟨by rw [hr], by rw [hr], by rw [hr], ?_, ?_⟩
  · rw [hr]
    intro s hs
    obtain ⟨i, hi, rfl⟩ := List.mem_map.1 hs
    have hb := calculate_backoff_bounds (1 + i) (by omega) (jit (1 + i))
      (hj (1 + i)).1 (hj (1 + i)).2
    have hone : (1 : ℚ) ≤ ((1 + i : Nat) : ℚ) := by
      exact_mod_cast Nat.le_add_right 1 i
    nlinarith [hb.1]
  · intro i
    exact calculate_backoff_bounds (1 + i) (by omega) (jit (1 + i))
      (hj (1 + i)).1 (hj (1 + i)).2

/-- Witness for C8: three always-failing attempts with jitter draw 1/2. -/
theorem retry_exhaustion_and_backoff_witness :
    (run_script_with_retry true 3 (fun _ => false) (fun _ => 1/2) true).success = false ∧
    (run_script_with_retry true 3 (fun _ => false) (fun _ => 1/2) true).attempts = 3 :=
  ⟨(retry_exhaustion_and_backoff 3 (fun _ => false) (fun _ => 1/2)
      (fun _ => rfl) (fun _ => ⟨by norm_num, by norm_num⟩)).1,
   (retry_exhaustion_and_backoff 3 (fun _ => false) (fun _ => 1/2)
      (fun _ => rfl) (fun _ => ⟨by norm_num, by norm_num⟩)).2.1⟩

/-- Helper: every month length is at most 31. -/
theorem daysInMonth_le (y m : Nat) : daysInMonth y m ≤ 31 := by
  unfold daysInMonth
  split
  · split <;> norm_num
  · split <;> norm_num

/-- Helper: a decimal digit character parses back to its value. -/
theorem parseDigit_digitChar (d : Nat) (h : d < 10) :
    parseDigit (Nat.digitChar d) = some d := by
  interval_cases d <;> decide

/-- Helper: fixed-width parsing inverts fixed-width zero-padded printing. -/
theorem parseFixedAux_padChars (k : Nat) :
    ∀ (acc n : Nat) (rest : List Char), n < 10 ^ k →
      parseFixedAux k acc (padChars k n ++ rest) =
        some (acc * 10 ^ k + n, rest) := by
  induction k with
  | zero =>
    intro acc n rest h
    have hn : n = 0 := by omega
    subst hn
    simp [padChars, parseFixedAux]
  | succ k ih =>
    intro acc n rest h
    have hp : 0 < 10 ^ k := Nat.pow_pos (by norm_num)
    have hdlt : n / 10 ^ k < 10 := by
      rw [Nat.div_lt_iff_lt_mul hp]
      calc n < 10 ^ (k + 1) := h
        _ = 10 * 10 ^ k := by ring
    simp only [padChars, List.cons_append, List.append_eq, parseFixedAux,
      parseDigit_digitChar _ hdlt]
    rw [ih (acc * 10 + n / 10 ^ k) (n % 10 ^ k) rest (Nat.mod_lt _ hp)]
    have h2 : n / 10 ^ k * 10 ^ k + n % 10 ^ k = n := Nat.div_add_mod' n (10 ^ k)
    have h3 : (acc * 10 + n / 10 ^ k) * 10 ^ k + n % 10 ^ k =
        acc * 10 ^ (k + 1) + n := by
      calc (acc * 10 + n / 10 ^ k) * 10 ^ k + n % 10 ^ k
          = acc * (10 ^ k * 10) + (n / 10 ^ k * 10 ^ k + n % 10 ^ k) := by ring
        _ = acc * (10 ^ k * 10) + n := by rw [h2]
        _ = acc * 10 ^ (k + 1) + n := by rw [pow_succ]
    rw [h3]

/-- Helper: `parseFixed` inverts `padChars`. -/
theorem parseFixed_padChars (k n : Nat) (rest : List Char) (h : n < 10 ^ k) :
    parseFixed k (padChars k n ++ rest) = some (n, rest) := by
  unfold parseFixed
  rw [parseFixedAux_padChars k 0 n rest h]
  simp

/-- Helper: expecting the character that is actually there succeeds. -/
theorem expectChar_cons_self (c : Char) (rest : List Char) :
    expectChar c (c :: rest) = some rest := by
  simp [expectChar]

/-- Helper: parsing inverts printing for every valid datetime. -/
theorem fromIsoChars_toIsoChars (t : PyDateTime) (h : t.Valid) :
    fromIsoChars (toIsoChars t) = some t := by
  obtain ⟨y, mo, d, hh, mi, se, u⟩ := t
  simp only [PyDateTime.Valid] at h
  obtain ⟨h1, h2, h3, h4, h5, h6, h7, h8, h9, h10⟩ := h
  unfold toIsoChars fromIsoChars
  dsimp only
  simp only [List.append_assoc, List.cons_append]
  rw [parseFixed_padChars 4 y _ (lt_of_le_of_lt h2 (by norm_num))]
  dsimp only
  rw [expectChar_cons_self]
  dsimp only
  rw [parseFixed_padChars 2 mo _ (lt_of_le_of_lt h4 (by norm_num))]
  dsimp only
  rw [expectChar_cons_self]
  dsimp only
  rw [parseFixed_padChars 2 d _
    (lt_of_le_of_lt (h6.trans (daysInMonth_le y mo)) (by norm_num))]
  dsimp only
  rw [expectChar_cons_self]
  dsimp only
  rw [parseFixed_padChars 2 hh _ (lt_of_le_of_lt h7 (by norm_num))]
  dsimp only
  rw [expectChar_cons_self]
  dsimp only
  rw [parseFixed_padChars 2 mi _ (lt_of_le_of_lt h8 (by norm_num))]
  dsimp only
  rw [expectChar_cons_self]
  dsimp only
  rw [parseFixed_padChars 2 se _ (lt_of_le_of_lt h9 (by norm_num))]
  dsimp only
  by_cases hu : u = 0
  · rw [if_pos hu]
    dsimp only
    rw [if_pos ⟨h1, h2, h3, h4, h5, h6, h7, h8, h9⟩, hu]
  · rw [if_neg hu]
    dsimp only
    rw [expectChar_cons_self]
    dsimp only
    rw [show padChars 6 u = padChars 6 u ++ [] from (List.append_nil _).symm]
    rw [parseFixed_padChars 6 u [] (lt_of_le_of_lt h10 (by norm_num))]
    dsimp only
    rw [if_pos ⟨h1, h2, h3, h4, h5, h6, h7, h8, h9⟩]

/-- C9: freshness-store round trip: a successful `save_download_time`
recording wall-clock time `t` followed by `get_last_download_time` on the
resulting file returns exactly `t` — ISO-8601 serialization and
`fromisoformat` parsing are mutually inverse, losing no precision. -/
theorem metadata_roundtrip (t : PyDateTime) (src : String) (fs : FileState)
    (h : t.Valid) :
    get_last_download_time (save_download_time t src true fs) = some t := by
  unfold save_download_time
  rw [if_pos rfl]
  unfold get_last_download_time
  exact fromIsoChars_toIsoChars t h

/-- Witness for C9: a concrete timestamp with microseconds survives the
round trip exactly. -/
theorem metadata_roundtrip_witness :
    get_last_download_time
      (save_download_time ⟨2025, 10, 12, 3, 4, 5, 123456⟩ "eia" true .absent)
      = some ⟨2025, 10, 12, 3, 4, 5, 123456⟩ :=
  metadata_roundtrip ⟨2025, 10, 12, 3, 4, 5, 123456⟩ "eia" .absent (by decide)

end Gas
